import Mathlib

/-!
Verification development for the xinhui real-time CPET threshold-detection
backend.  The definitions below are shallow embeddings of the Python source:

* `src/backend/inference/at_predictor.py` — `CPETDataPoint`, `ATOnlineSession`
  (the online anaerobic-threshold detector state machine);
* `src/backend/consensus.py` — `recompute_consensus` (two-reader + adjudicator
  consensus resolver);
* `src/backend/realtime/simulator.py` — `CPETSimulator.iter_samples` (paced
  replay plan);
* `src/backend/realtime/websocket.py` — `RealtimeManager.process_data`
  (per-session ingestion).

Python floats are modelled as rationals (`ℚ`); Python `None` as `Option`;
Python lists keep the source's most-recent-last order.
-/

namespace Xinhui

/-- Python slice `l[-n:]`.  Note the Python quirk: for `n = 0` the slice
`l[-0:]` is the whole list, not the empty list. -/
def pySliceLast (n : ℕ) (l : List α) : List α :=
  if n = 0 then l else l.drop (l.length - n)

/-- Python `str.lower()` (ASCII case folding, as used on the feature and
column names). -/
def pyLower (s : String) : String := ⟨s.data.map Char.toLower⟩

/-- Python `str.strip()`: remove leading and trailing whitespace. -/
def pyStrip (s : String) : String :=
  ⟨((s.data.dropWhile Char.isWhitespace).reverse.dropWhile
      Char.isWhitespace).reverse⟩

/-! ## `at_predictor.CPETDataPoint` -/

/-- One CPET sample (`at_predictor.py`, class `CPETDataPoint`).  The `extras`
map holds lower-cased derived-field names; a stored `none` models a stored
Python `None`. -/
structure CPETDataPoint where
  timestamp : ℚ
  vo2 : ℚ
  vco2 : ℚ
  ve : ℚ
  hr : ℚ
  rr : ℚ
  rer : ℚ
  work_rate : ℚ
  spo2 : Option ℚ := none
  sbp : Option ℚ := none
  dbp : Option ℚ := none
  extras : List (String × Option ℚ) := []
deriving Repr, DecidableEq

/-- The `direct_map` lookup inside `CPETDataPoint.get_feature`, fused with the
`is not None` guard: returns `some v` exactly when the key is in the map and
its value is not `None`. -/
def CPETDataPoint.directGet (p : CPETDataPoint) (lower : String) : Option ℚ :=
  if lower = "timestamp" then some p.timestamp
  else if lower = "time" then some p.timestamp
  else if lower = "vo2" then some p.vo2
  else if lower = "vco2" then some p.vco2
  else if lower = "ve" then some p.ve
  else if lower = "hr" then some p.hr
  else if lower = "rr" then some p.rr
  else if lower = "rer" then some p.rer
  else if lower = "work_rate" then some p.work_rate
  else if lower = "power_load" then some p.work_rate
  else if lower = "power" then some p.work_rate
  else if lower = "spo2" then p.spo2
  else if lower = "sbp" then p.sbp
  else if lower = "dbp" then p.dbp
  else if lower = "bf" then some p.rr
  else none

/-- Embedding of `CPETDataPoint.get_feature` (`at_predictor.py` lines 52–88): extras first
(`extras.get(lower)` is `none` both when the key is absent and when the stored
value is `None`, hence the `Option.join`), then the direct map, then the
guarded derived ratios, else `0.0`. -/
def CPETDataPoint.get_feature (p : CPETDataPoint) (name : String) : ℚ :=
  let key := pyStrip name
  let lower := pyLower key
  match (p.extras.lookup lower).join with
  | some v => v
  | none =>
    match p.directGet lower with
    | some v => v
    | none =>
      if lower = "ve_vo2" then (if p.vo2 ≠ 0 then p.ve / p.vo2 else 0)
      else if lower = "ve_vco2" then (if p.vco2 ≠ 0 then p.ve / p.vco2 else 0)
      else if lower = "vo2_hr" then (if p.hr ≠ 0 then p.vo2 / p.hr else 0)
      else 0

/-- Embedding of `CPETDataPoint.to_feature_vector`: the feature vector is the pointwise
`get_feature` over the requested names. -/
def CPETDataPoint.to_feature_vector (p : CPETDataPoint) (feature_names : List String) : List ℚ :=
  feature_names.map p.get_feature

/-- Every feature name `get_feature` can resolve to a non-extras value:
the `direct_map` keys plus the three guarded derived ratios. -/
def knownFeatureNames : List String :=
  ["timestamp", "time", "vo2", "vco2", "ve", "hr", "rr", "rer",
   "work_rate", "power_load", "power", "spo2", "sbp", "dbp", "bf",
   "ve_vo2", "ve_vco2", "vo2_hr"]

/-! ## `at_predictor.ATOnlineSession` -/

/-- Embedding of `ATOnlineResult` (`at_predictor.py`).  The source also carries a
`confidence` field, `clamp(1 − 2·std(last 5 probs), 0.5, 1)` (`0.5` below 5
samples); it involves a real square root, and no verified property here
concerns it, so it is left out of the embedding. -/
structure ATOnlineResult where
  timestamp : ℚ
  at_probability : ℚ
  at_triggered : Bool
  predicted_at_time : Option ℚ
  intensity_zone : String
  alerts : List String
deriving Repr, DecidableEq

/-- The mutable state of `ATOnlineSession` (`at_predictor.py` lines 103–136). -/
structure ATOnlineSession where
  threshold : ℚ
  persistence : ℕ
  window_size : ℕ
  data_buffer : List CPETDataPoint
  prob_history : List ℚ
  timestamps : List ℚ
  at_triggered : Bool
  trigger_time : Option ℚ
  consecutive_above_threshold : ℕ
  has_exercise_started : Bool
  vt1_trigger_time : Option ℚ
  vt1_transition_seconds : ℚ
deriving Repr, DecidableEq

/-- Embedding of `ATOnlineSession.__init__`. -/
def ATOnlineSession.create (threshold : ℚ := mkRat 7 10) (persistence : ℕ := 3)
    (window_size : ℕ := 60) : ATOnlineSession :=
  { threshold := threshold
    persistence := persistence
    window_size := window_size
    data_buffer := []
    prob_history := []
    timestamps := []
    at_triggered := false
    trigger_time := none
    consecutive_above_threshold := 0
    has_exercise_started := false
    vt1_trigger_time := none
    vt1_transition_seconds := 30 }

/-- Embedding of `ATOnlineSession.add_data_point`: append, then keep at most
`2 × window_size` most recent entries (the Python slice `[-window_size*2:]`). -/
def ATOnlineSession.add_data_point (s : ATOnlineSession) (point : CPETDataPoint) :
    ATOnlineSession :=
  let buf := s.data_buffer ++ [point]
  let ts := s.timestamps ++ [point.timestamp]
  if buf.length > s.window_size * 2 then
    { s with data_buffer := pySliceLast (s.window_size * 2) buf
             timestamps := pySliceLast (s.window_size * 2) ts }
  else
    { s with data_buffer := buf, timestamps := ts }

/-- Embedding of `ATOnlineSession._estimate_at_time` (`at_predictor.py` lines 204–233):
trigger time once triggered; otherwise linear extrapolation over the last 10
(probability, timestamp) pairs, `none` below 10 points or on a non-positive
endpoint slope. -/
def ATOnlineSession.estimate_at_time (s : ATOnlineSession) : Option ℚ :=
  if s.at_triggered then s.trigger_time
  else if s.prob_history.length < 10 then none
  else
    let recent_probs := pySliceLast 10 s.prob_history
    if s.timestamps.length < 10 then none
    else
      let recent_times := pySliceLast 10 s.timestamps
      let prob_diff := recent_probs.getLastD 0 - recent_probs.headD 0
      let time_diff := recent_times.getLastD 0 - recent_times.headD 0
      if time_diff ≤ 0 ∨ prob_diff ≤ 0 then none
      else
        let rate := prob_diff / time_diff
        let remaining := s.threshold - recent_probs.getLastD 0
        if remaining ≤ 0 then some (recent_times.getLastD 0)
        else some (recent_times.getLastD 0 + remaining / rate)

/-- Embedding of `ATOnlineSession._determine_intensity_zone` (`at_predictor.py` lines
235–248).  Returns the zone label together with the session (the Python
method mutates `has_exercise_started` and `vt1_trigger_time` in place). -/
def ATOnlineSession.determine_intensity_zone (s : ATOnlineSession)
    (power_load : Option ℚ) (current_time : ℚ) : String × ATOnlineSession :=
  match power_load with
  | none => ("warmup", s)
  | some pl =>
    if pl ≤ 0 then
      ((if s.has_exercise_started then "recovery" else "warmup"), s)
    else
      let s := { s with has_exercise_started := true }
      if ¬ s.at_triggered then ("aerobic", s)
      else
        let s := if s.vt1_trigger_time = none then
                   { s with vt1_trigger_time := some current_time }
                 else s
        if current_time - s.vt1_trigger_time.getD 0 ≤ s.vt1_transition_seconds then
          ("threshold", s)
        else ("anaerobic", s)

/-- Embedding of `ATOnlineSession.update_probability` (`at_predictor.py` lines 147–202):
append the probability, run the debounce/trigger check, pick the estimated
crossing time (direct estimate first, else `_estimate_at_time`), classify the
zone, add the pre-trigger advisory alerts, and build the result. -/
def ATOnlineSession.update_probability (s : ATOnlineSession) (prob : ℚ)
    (predicted_at_time : Option ℚ := none) (power_load : Option ℚ := none) :
    ATOnlineSession × ATOnlineResult :=
  let s := { s with prob_history := s.prob_history ++ [prob] }
  let step : ATOnlineSession × List String :=
    if ¬ s.at_triggered then
      if prob ≥ s.threshold then
        let c := s.consecutive_above_threshold + 1
        if c ≥ s.persistence then
          ({ s with consecutive_above_threshold := c
                    at_triggered := true
                    trigger_time := some (s.timestamps.getLastD 0) },
           ["AT 已到达！建议可以停止测试"])
        else
          ({ s with consecutive_above_threshold := c }, [])
      else
        ({ s with consecutive_above_threshold := 0 }, [])
    else (s, [])
  let s := step.1
  let alerts := step.2
  let predicted_at :=
    match predicted_at_time with
    | some t => some t
    | none => s.estimate_at_time
  let current_time := s.timestamps.getLastD 0
  let zoneStep := s.determine_intensity_zone power_load current_time
  let s := zoneStep.2
  let alerts :=
    if ¬ s.at_triggered then
      if prob ≥ mkRat 1 2 then alerts ++ ["接近 AT，请注意观察"]
      else if prob ≥ mkRat 3 10 then alerts ++ ["进入有氧区"]
      else alerts
    else alerts
  (s,
   { timestamp := s.timestamps.getLastD 0
     at_probability := prob
     at_triggered := s.at_triggered
     predicted_at_time := predicted_at
     intensity_zone := zoneStep.1
     alerts := alerts })

/-- Embedding of `ATOnlineSession.reset` (`at_predictor.py` lines 263–272). -/
def ATOnlineSession.reset (s : ATOnlineSession) : ATOnlineSession :=
  { s with data_buffer := []
           prob_history := []
           timestamps := []
           at_triggered := false
           trigger_time := none
           consecutive_above_threshold := 0
           has_exercise_started := false
           vt1_trigger_time := none }

/-- One step of a detection session's lifetime: a sample ingestion
(`add_data_point`) or a probability update (`update_probability`). -/
inductive SessionOp where
  | add (point : CPETDataPoint)
  | upd (prob : ℚ) (predicted_at_time : Option ℚ) (power_load : Option ℚ)
deriving Repr, DecidableEq

/-- Run a list of session operations, collecting the Detection Results the
updates emit, in order. -/
def runOps (s : ATOnlineSession) : List SessionOp → ATOnlineSession × List ATOnlineResult
  | [] => (s, [])
  | SessionOp.add p :: ops => runOps (s.add_data_point p) ops
  | SessionOp.upd prob pt pl :: ops =>
    let step := s.update_probability prob pt pl
    let rest := runOps step.1 ops
    (rest.1, step.2 :: rest.2)

/-! ## `consensus.py` -/

/-- One row of the `annotations` table: `(role, at_time, created_at)`.
`created_at` is the ISO text timestamp the source compares with `>`. -/
structure AnnotationRow where
  role : String
  at_time : ℚ
  created_at : String
deriving Repr, DecidableEq

/-- One fold step of `_latest_by_role`: keep the entry with the larger
`created_at` (`if role not in latest or created_at > latest[role][1]`). -/
def updLatest (latest : List (String × ℚ × String)) (row : AnnotationRow) :
    List (String × ℚ × String) :=
  match latest.lookup row.role with
  | none => latest ++ [(row.role, row.at_time, row.created_at)]
  | some (_, c0) =>
    if c0 < row.created_at then
      latest.map fun e =>
        if e.1 = row.role then (row.role, row.at_time, row.created_at) else e
    else latest

/-- Embedding of `consensus._latest_by_role`: latest annotation per role, by `created_at`. -/
def latestByRole (rows : List AnnotationRow) : List (String × ℚ × String) :=
  rows.foldl updLatest []

/-- The row upserted into the `consensus` table, keyed by `exam_id`
(insert-or-replace: `ON CONFLICT(exam_id) DO UPDATE` sets every column). -/
structure ConsensusRecord where
  exam_id : String
  delta : ℚ
  status : String
  t_a : Option ℚ
  t_b : Option ℚ
  t_c : Option ℚ
  t_gt : Option ℚ
  updated_at : String
deriving Repr, DecidableEq

/-- Embedding of `consensus.recompute_consensus` (lines 17–86).  The SQL read is modelled
by passing the exam's annotation rows; `datetime.utcnow().isoformat()` is the
explicit `now` argument.  The returned record is the row upserted into the
`consensus` table. -/
def recompute_consensus (rows : List AnnotationRow) (exam_id : String)
    (delta_sec : ℚ) (now : String) : ConsensusRecord :=
  let latest := latestByRole rows
  let t_a := (latest.lookup "a").map Prod.fst
  let t_b := (latest.lookup "b").map Prod.fst
  let t_c := (latest.lookup "adjudicator").map Prod.fst
  let st :=
    match t_c with
    | some c => ("finalized", some c)
    | none =>
      match t_a, t_b with
      | some a, some b =>
        if |a - b| ≤ delta_sec then ("concordant", some ((a + b) / 2))
        else ("discordant", (none : Option ℚ))
      | some _, none => ("partial", none)
      | none, some _ => ("partial", none)
      | none, none => ("pending", none)
  { exam_id := exam_id
    delta := delta_sec
    status := st.1
    t_a := t_a
    t_b := t_b
    t_c := t_c
    t_gt := st.2
    updated_at := now }

/-! ## `realtime/simulator.py` -/

/-- One dataframe row: the column values of that row.  A stored `none` models
a missing or non-finite value (`_safe_float` maps NaN/Infinity to the
default). -/
structure SimRow where
  columns : List (String × Option ℚ)
deriving Repr, DecidableEq

/-- Column access `row.get(name)` filtered through `_safe_float` with default `None`. -/
def SimRow.getCol (row : SimRow) (name : String) : Option ℚ :=
  (row.columns.lookup name).join

/-- The exam dataframe handed to `iter_samples`: the ordered rows plus whether
a `"Time"` column is present (`"Time" in df.columns`). -/
structure SimTable where
  hasTimeCol : Bool
  rows : List SimRow
deriving Repr, DecidableEq

/-- Embedding of `CPETSimulator.build_sample_payload`: the fixed field mapping from row
columns to the wire-sample dict (missing/non-finite values become `none`). -/
def build_sample_payload (row : SimRow) (timestamp : ℚ) :
    List (String × Option ℚ) :=
  [("timestamp", some timestamp),
   ("vo2", row.getCol "VO2"),
   ("vco2", row.getCol "VCO2"),
   ("ve", row.getCol "VE"),
   ("hr", row.getCol "HR"),
   ("rr", row.getCol "Bf"),
   ("rer", row.getCol "RER"),
   ("work_rate", row.getCol "Power_Load"),
   ("spo2", row.getCol "SpO2"),
   ("sbp", row.getCol "BP_Syst"),
   ("dbp", row.getCol "BP_Diast"),
   ("vt", row.getCol "VT"),
   ("peto2", row.getCol "PetO2"),
   ("petco2", row.getCol "PetCO2"),
   ("ve_vo2", row.getCol "VE_VO2"),
   ("ve_vco2", row.getCol "VE_VCO2"),
   ("vo2_hr", row.getCol "VO2_HR"),
   ("bf", row.getCol "Bf")]

/-- Embedding of `CPETSimulator.build_data_point`: numeric fields default to `0.0`
(`_safe_float(..., 0.0) or 0.0`), every column except `Examination_ID` lands
lower-cased in `extras`. -/
def build_data_point (row : SimRow) (timestamp : ℚ) : CPETDataPoint :=
  { timestamp := timestamp
    vo2 := (row.getCol "VO2").getD 0
    vco2 := (row.getCol "VCO2").getD 0
    ve := (row.getCol "VE").getD 0
    hr := (row.getCol "HR").getD 0
    rr := (row.getCol "Bf").getD 0
    rer := (row.getCol "RER").getD 0
    work_rate := (row.getCol "Power_Load").getD 0
    spo2 := row.getCol "SpO2"
    sbp := row.getCol "BP_Syst"
    dbp := row.getCol "BP_Diast"
    extras := (row.columns.filter fun kv => kv.1 ≠ "Examination_ID").map
      fun kv => (pyLower kv.1, kv.2.join) }

/-- The loop body of `CPETSimulator.iter_samples`: `idx` is the running row
index, `prev` the previous emitted timestamp (`prev_time`).  Each emitted
triple is `(sample payload, data point, sleep seconds)`. -/
def iterSamplesAux (hasTime : Bool) (speed defaultStep : ℚ) :
    ℕ → Option ℚ → List SimRow → List ((List (String × Option ℚ)) × CPETDataPoint × ℚ)
  | _, _, [] => []
  | idx, prev, row :: rest =>
    let timestamp :=
      if hasTime then (row.getCol "Time").getD ((idx : ℚ) * defaultStep)
      else (idx : ℚ) * defaultStep
    let sleep : ℚ :=
      match prev with
      | none => 0
      | some p => max 0 (timestamp - p) / max speed (mkRat 1 1000)
    (build_sample_payload row timestamp, build_data_point row timestamp, sleep) ::
      iterSamplesAux hasTime speed defaultStep (idx + 1) (some timestamp) rest

/-- Embedding of `CPETSimulator.iter_samples` (`simulator.py` lines 105–130): derive each
row's timestamp from the `Time` column when present (falling back to
`index × default_step` for missing/non-finite entries, and always when the
column is absent), and pace successive rows by
`max(0, Δtime) / max(speed, 1e-3)`, with zero delay for the first row.
`default_step` defaults to `settings.delta_sec` (15 s) in the source; here it
is an explicit argument. -/
def iter_samples (df : SimTable) (speed defaultStep : ℚ) :
    List ((List (String × Option ℚ)) × CPETDataPoint × ℚ) :=
  iterSamplesAux df.hasTimeCol speed defaultStep 0 none df.rows

/-! ## `realtime/websocket.py` -/

/-- Embedding of `SessionState` (`websocket.py` lines 28–41).  `started_at` (wall-clock,
only read by the summary endpoint) and `static_features` (opaque model
metadata, only forwarded to the scoring function) are omitted. -/
structure SessionState where
  session_id : String
  patient_id : Option String
  at_session : ATOnlineSession
  data_count : ℕ
  at_triggered : Bool
  trigger_time : Option ℚ
  mode : String
  exam_id : Option String
deriving Repr, DecidableEq

/-- What `ATPredictor.predict_outputs` returns to `process_data`: the
probability sequence plus optional direct crossing-time and VO2-peak
estimates.  The scoring function itself is external (an opaque model), so
`process_data` below takes it as a parameter. -/
structure PredictOutputs where
  probs : List ℚ
  time_pred : Option ℚ
  vo2_pred : Option ℚ
deriving Repr, DecidableEq

/-- The keys `process_data` extracts into named `CPETDataPoint` fields; every
other inbound key goes to `extras`. -/
def fixedSampleKeys : List String :=
  ["timestamp", "vo2", "vco2", "ve", "hr", "rr", "rer", "work_rate",
   "spo2", "sbp", "dbp"]

/-- The sample-parsing block of `process_data` (`websocket.py` lines 175–207):
`data.get(key, default)` over the inbound JSON object.  The inbound message is
modelled as a numeric JSON object (`List (String × ℚ)`); note the source
performs no validation of field values. -/
def parsePoint (data : List (String × ℚ)) : CPETDataPoint :=
  { timestamp := (data.lookup "timestamp").getD 0
    vo2 := (data.lookup "vo2").getD 0
    vco2 := (data.lookup "vco2").getD 0
    ve := (data.lookup "ve").getD 0
    hr := (data.lookup "hr").getD 0
    rr := (data.lookup "rr").getD 0
    rer := (data.lookup "rer").getD 0
    work_rate := (data.lookup "work_rate").getD
      ((data.lookup "power_load").getD ((data.lookup "power").getD 0))
    spo2 := data.lookup "spo2"
    sbp := data.lookup "sbp"
    dbp := data.lookup "dbp"
    extras := (data.filter fun kv => ¬ fixedSampleKeys.contains kv.1).map
      fun kv => (pyLower kv.1, some kv.2) }

/-- The response dict `process_data` builds (numeric display rounding of
`at_probability`/`confidence` and the optional `vo2_peak_prediction` block,
which calls the external VO2 predictor, are omitted). -/
structure ProcResponse where
  timestamp : ℚ
  at_probability : ℚ
  at_triggered : Bool
  predicted_at_time : Option ℚ
  intensity_zone : String
  alerts : List String
  data_count : ℕ
  exam_id : Option String
deriving Repr, DecidableEq

/-- Embedding of `RealtimeManager.process_data` (`websocket.py` lines 154–275).  `predict`
stands for `self.at_predictor.predict_outputs` applied to the session's
buffered history; `session?` is `self.sessions.get(session_id)`.  The warmup
branch (`power_load ≤ 0` before exercise has started) skips the scoring
function and fabricates a zero-probability result. -/
def process_data (predict : List CPETDataPoint → PredictOutputs)
    (session? : Option SessionState) (data : List (String × ℚ)) :
    Except String (SessionState × ProcResponse) :=
  match session? with
  | none => .error "Session not found"
  | some session =>
    let point := parsePoint data
    let session := { session with
      at_session := session.at_session.add_data_point point
      data_count := session.data_count + 1 }
    let power_load := point.work_rate
    let step : SessionState × ATOnlineResult :=
      if power_load ≤ 0 ∧ ¬ session.at_session.has_exercise_started then
        (session,
         { timestamp := point.timestamp
           at_probability := 0
           at_triggered := session.at_triggered
           predicted_at_time := none
           intensity_zone := "warmup"
           alerts := [] })
      else
        let outputs := predict session.at_session.data_buffer
        let current_prob := outputs.probs.getLastD 0
        let upd := session.at_session.update_probability current_prob
          outputs.time_pred (some power_load)
        ({ session with at_session := upd.1 }, upd.2)
    let session := step.1
    let result := step.2
    let session :=
      if result.at_triggered ∧ ¬ session.at_triggered then
        { session with at_triggered := true, trigger_time := some result.timestamp }
      else session
    .ok (session,
      { timestamp := point.timestamp
        at_probability := result.at_probability
        at_triggered := result.at_triggered
        predicted_at_time := result.predicted_at_time
        intensity_zone := result.intensity_zone
        alerts := result.alerts
        data_count := session.data_count
        exam_id := session.exam_id })

/-! ## Concrete instances used by witnesses and counterexamples -/

/-- A sample whose physiological fields are all zero (only the timestamp
matters for the trigger/estimate state machine). -/
def zeroPoint (t : ℚ) : CPETDataPoint :=
  { timestamp := t, vo2 := 0, vco2 := 0, ve := 0, hr := 0, rr := 0, rer := 0,
    work_rate := 0 }

/-- An inhabitant of `CPETDataPoint` used as a `getD` default. -/
def defaultPoint : CPETDataPoint := zeroPoint 0

/-- Scenario of C2: fresh session with threshold 0.7 and persistence 3, one
sample ingested before each of the probability updates 0.5, 0.8, 0.8, 0.8. -/
def c2Ops : List SessionOp :=
  [.add (zeroPoint 10), .upd (mkRat 1 2) none none,
   .add (zeroPoint 20), .upd (mkRat 4 5) none none,
   .add (zeroPoint 30), .upd (mkRat 4 5) none none,
   .add (zeroPoint 40), .upd (mkRat 4 5) none none]

/-- The C2 scenario, executed. -/
def c2Run : ATOnlineSession × List ATOnlineResult :=
  runOps (ATOnlineSession.create (mkRat 7 10) 3 60) c2Ops

/-- A session triggered through the public API (persistence 1, one sample at
t = 5, probability 0.9): `at_triggered = true`, `trigger_time = some 5`. -/
def triggeredSession : ATOnlineSession :=
  (((ATOnlineSession.create (mkRat 7 10) 1 60).add_data_point
      (zeroPoint 5)).update_probability (mkRat 9 10) none none).1

/-- Annotations with both primary readers 6 s apart (spec example). -/
def c3rows : List AnnotationRow := [⟨"a", 300, "t1"⟩, ⟨"b", 306, "t2"⟩]

/-- Annotations with both primary readers 30 s apart (spec example). -/
def c3rowsFar : List AnnotationRow := [⟨"a", 300, "t1"⟩, ⟨"b", 330, "t2"⟩]

/-- A single primary-a annotation, used by the C4 counterexample. -/
def c4rows : List AnnotationRow := [⟨"a", 300, "2026-01-01T00:00:00"⟩]

/-- Replay table with an explicit `Time` column `[0, 10, 25]`. -/
def c7TimedTable : SimTable :=
  ⟨true, [⟨[("Time", some 0)]⟩, ⟨[("Time", some 10)]⟩, ⟨[("Time", some 25)]⟩]⟩

/-- Replay table of three rows without a `Time` column. -/
def c7NoTimeTable : SimTable := ⟨false, [⟨[]⟩, ⟨[]⟩, ⟨[]⟩]⟩

/-- A fresh manager-level session state (as built by `connect` with the
default threshold 0.7 and persistence 3). -/
def freshSessionState : SessionState :=
  { session_id := "s1", patient_id := none,
    at_session := ATOnlineSession.create (mkRat 7 10) 3 60,
    data_count := 0, at_triggered := false, trigger_time := none,
    mode := "device", exam_id := none }

/-- An inbound sample with plainly out-of-range fields (heart rate −1000 bpm,
RER 20) used by the C9 counterexample. -/
def c9data : List (String × ℚ) := [("timestamp", 1), ("hr", -1000), ("work_rate", 50), ("rer", 20)]

/-- An inbound pre-exercise sample (work rate 0) for the C8 witness. -/
def c8data : List (String × ℚ) := [("timestamp", 1), ("work_rate", 0)]

/-- A concrete stand-in for the opaque scoring function. -/
def dfltPredict : List CPETDataPoint → PredictOutputs := fun _ => ⟨[], none, none⟩

/-- A second, different stand-in scoring function (used to state that the
warmup branch never consults the scoring function). -/
def otherPredict : List CPETDataPoint → PredictOutputs :=
  fun ps => ⟨ps.map fun _ => 1, some 42, some 3⟩

/-- The probability-vs-time slope used by the extrapolation in
`_estimate_at_time`: the endpoint difference quotient over the most recent 10
(probability, timestamp) pairs, exactly as the source computes
`prob_diff / time_diff`. -/
def endpointSlope (probs times : List ℚ) : ℚ :=
  ((pySliceLast 10 probs).getLastD 0 - (pySliceLast 10 probs).headD 0) /
  ((pySliceLast 10 times).getLastD 0 - (pySliceLast 10 times).headD 0)

/-- Default element for indexing into a replay plan. -/
def dfltEmit : (List (String × Option ℚ)) × CPETDataPoint × ℚ :=
  ([], defaultPoint, 0)

/-- The timestamp of the k-th emitted replay item. -/
def planTimestamp (plan : List ((List (String × Option ℚ)) × CPETDataPoint × ℚ))
    (k : ℕ) : ℚ :=
  ((plan.getD k dfltEmit).2.1).timestamp

/-- The pre-emission delay of the k-th emitted replay item. -/
def planSleep (plan : List ((List (String × Option ℚ)) × CPETDataPoint × ℚ))
    (k : ℕ) : ℚ :=
  (plan.getD k dfltEmit).2.2

/-! ## Helper lemmas -/

/-- The method `add_data_point` only touches the sample buffer and the timestamp list. -/
theorem add_data_point_fields (s : ATOnlineSession) (p : CPETDataPoint) :
    (s.add_data_point p).at_triggered = s.at_triggered ∧
    (s.add_data_point p).trigger_time = s.trigger_time ∧
    (s.add_data_point p).prob_history = s.prob_history ∧
    (s.add_data_point p).consecutive_above_threshold = s.consecutive_above_threshold ∧
    (s.add_data_point p).has_exercise_started = s.has_exercise_started ∧
    (s.add_data_point p).threshold = s.threshold := by
  simp only [ATOnlineSession.add_data_point]
  split <;> exact ⟨rfl, rfl, rfl, rfl, rfl, rfl⟩

/-- The method `_determine_intensity_zone` only touches `has_exercise_started` and
`vt1_trigger_time`. -/
theorem determine_intensity_zone_fields (s : ATOnlineSession) (pl : Option ℚ) (t : ℚ) :
    (s.determine_intensity_zone pl t).2.at_triggered = s.at_triggered ∧
    (s.determine_intensity_zone pl t).2.trigger_time = s.trigger_time ∧
    (s.determine_intensity_zone pl t).2.prob_history = s.prob_history ∧
    (s.determine_intensity_zone pl t).2.timestamps = s.timestamps ∧
    (s.determine_intensity_zone pl t).2.consecutive_above_threshold
      = s.consecutive_above_threshold ∧
    (s.determine_intensity_zone pl t).2.data_buffer = s.data_buffer := by
  unfold ATOnlineSession.determine_intensity_zone
  cases pl with
  | none => exact ⟨rfl, rfl, rfl, rfl, rfl, rfl⟩
  | some v =>
    dsimp only
    split_ifs <;> exact ⟨rfl, rfl, rfl, rfl, rfl, rfl⟩

/-- Simp form: `_determine_intensity_zone` preserves `at_triggered`. -/
@[simp] theorem determine_intensity_zone_at_triggered (s : ATOnlineSession)
    (pl : Option ℚ) (t : ℚ) :
    (s.determine_intensity_zone pl t).2.at_triggered = s.at_triggered :=
  (determine_intensity_zone_fields s pl t).1

/-- Simp form: `_determine_intensity_zone` preserves `trigger_time`. -/
@[simp] theorem determine_intensity_zone_trigger_time (s : ATOnlineSession)
    (pl : Option ℚ) (t : ℚ) :
    (s.determine_intensity_zone pl t).2.trigger_time = s.trigger_time :=
  (determine_intensity_zone_fields s pl t).2.1

/-- Simp form: `_determine_intensity_zone` preserves the probability
history. -/
@[simp] theorem determine_intensity_zone_prob_history (s : ATOnlineSession)
    (pl : Option ℚ) (t : ℚ) :
    (s.determine_intensity_zone pl t).2.prob_history = s.prob_history :=
  (determine_intensity_zone_fields s pl t).2.2.1

/-- Simp form: `_determine_intensity_zone` preserves the timestamp list. -/
@[simp] theorem determine_intensity_zone_timestamps (s : ATOnlineSession)
    (pl : Option ℚ) (t : ℚ) :
    (s.determine_intensity_zone pl t).2.timestamps = s.timestamps :=
  (determine_intensity_zone_fields s pl t).2.2.2.1

/-- Simp form: `_determine_intensity_zone` preserves the debounce counter. -/
@[simp] theorem determine_intensity_zone_consecutive (s : ATOnlineSession)
    (pl : Option ℚ) (t : ℚ) :
    (s.determine_intensity_zone pl t).2.consecutive_above_threshold
      = s.consecutive_above_threshold :=
  (determine_intensity_zone_fields s pl t).2.2.2.2.1

/-- Simp form: `_determine_intensity_zone` preserves the sample buffer. -/
@[simp] theorem determine_intensity_zone_data_buffer (s : ATOnlineSession)
    (pl : Option ℚ) (t : ℚ) :
    (s.determine_intensity_zone pl t).2.data_buffer = s.data_buffer :=
  (determine_intensity_zone_fields s pl t).2.2.2.2.2

/-- A triggered session stays triggered through one `update_probability`
call, its trigger time is untouched, and the emitted result reports the
triggered flag. -/
theorem update_probability_triggered_mono (s : ATOnlineSession) (prob : ℚ)
    (pt pl : Option ℚ) (h : s.at_triggered = true) :
    (s.update_probability prob pt pl).1.at_triggered = true ∧
    (s.update_probability prob pt pl).1.trigger_time = s.trigger_time ∧
    (s.update_probability prob pt pl).2.at_triggered = true := by
  simp [ATOnlineSession.update_probability, h]

/-- The emitted result's triggered flag always equals the post-update
session's flag. -/
theorem update_probability_result_flag (s : ATOnlineSession) (prob : ℚ)
    (pt pl : Option ℚ) :
    (s.update_probability prob pt pl).2.at_triggered
      = (s.update_probability prob pt pl).1.at_triggered := rfl

/-- Over any operation sequence, a triggered session stays triggered and all
emitted results carry `at_triggered = true`. -/
theorem runOps_triggered_mono (ops : List SessionOp) :
    ∀ (s : ATOnlineSession), s.at_triggered = true →
      (runOps s ops).1.at_triggered = true ∧
      ∀ r ∈ (runOps s ops).2, r.at_triggered = true := by
  induction ops with
  | nil => exact fun s h => ⟨h, by simp [runOps]⟩
  | cons op ops ih =>
    intro s h
    cases op with
    | add p =>
      have hadd := (add_data_point_fields s p).1.trans h
      simpa [runOps] using ih (s.add_data_point p) hadd
    | upd prob pt pl =>
      have hstep := update_probability_triggered_mono s prob pt pl h
      have hrest := ih (s.update_probability prob pt pl).1 hstep.1
      refine ⟨by simpa [runOps] using hrest.1, ?_⟩
      intro r hr
      simp only [runOps, List.mem_cons] at hr
      rcases hr with hr | hr
      · exact hr ▸ hstep.2.2
      · exact hrest.2 r hr

/-! ## C1 -/

/-- C1: once a detection session's `at_triggered` flag is true it stays true
across every further ingestion/update, every subsequently emitted Detection
Result reports `at_triggered = true`, no update ever clears it (only `reset`
does), and the connection manager's per-session `at_triggered` mirror in
`process_data` is likewise sticky. -/
theorem C1_triggered_sticky (s : ATOnlineSession) (ops : List SessionOp)
    (h : s.at_triggered = true) :
    (runOps s ops).1.at_triggered = true ∧
    (∀ r ∈ (runOps s ops).2, r.at_triggered = true) ∧
    s.reset.at_triggered = false ∧
    (∀ (predict : List CPETDataPoint → PredictOutputs) (st : SessionState)
       (data : List (String × ℚ)) (out : SessionState × ProcResponse),
       process_data predict (some st) data = Except.ok out →
       st.at_triggered = true → out.1.at_triggered = true) := by
  refine ⟨(runOps_triggered_mono ops s h).1, (runOps_triggered_mono ops s h).2,
    rfl, ?_⟩
  intro predict st data out hout hst
  unfold process_data at hout
  dsimp only at hout
  split at hout
  next =>
    cases hout
    simp [hst]
  next =>
    split at hout <;>
    · cases hout
      simp [hst]

/-- Witness for C1: a concretely triggered session stays triggered through a
further low-probability update. -/
theorem C1_witness :
    triggeredSession.at_triggered = true ∧
    (runOps triggeredSession [SessionOp.upd (mkRat 1 10) none none]).1.at_triggered = true :=
  ⟨by decide,
   (C1_triggered_sticky triggeredSession [SessionOp.upd (mkRat 1 10) none none]
     (by decide)).1⟩

/-! ## C2 -/

/-- C2: on a fresh session with threshold 0.7 and persistence 3, feeding
probabilities [0.5, 0.8, 0.8, 0.8] (one sample ingested before each update,
at t = 10, 20, 30, 40) leaves `at_triggered` false on the first three
results, sets it on exactly the fourth, and records the fourth sample's
timestamp (40) as the trigger time; in general, before triggering the
consecutive-above-threshold counter resets to 0 on a probability below the
threshold and increments by one on a probability ≥ the threshold. -/
theorem C2_trigger_scenario (s : ATOnlineSession) (prob : ℚ)
    (pt pl : Option ℚ) (h : s.at_triggered = false) :
    (c2Run.2.map ATOnlineResult.at_triggered = [false, false, false, true] ∧
     c2Run.1.trigger_time = some 40 ∧
     (c2Run.2.getLastD ⟨0, 0, false, none, "", []⟩).at_triggered = true ∧
     (c2Run.2.getLastD ⟨0, 0, false, none, "", []⟩).timestamp = 40) ∧
    (prob < s.threshold →
      (s.update_probability prob pt pl).1.consecutive_above_threshold = 0) ∧
    (s.threshold ≤ prob →
      (s.update_probability prob pt pl).1.consecutive_above_threshold
        = s.consecutive_above_threshold + 1) := by
  refine ⟨by decide, ?_, ?_⟩
  · intro hlt
    have hn : ¬ (prob ≥ s.threshold) := not_le.mpr hlt
    simp [ATOnlineSession.update_probability, h, hn]
  · intro hge
    simp only [ATOnlineSession.update_probability, ge_iff_le, h,
      Bool.false_eq_true, not_false_eq_true, if_true, if_pos hge]
    split_ifs <;> simp

/-- Witness for C2: the concrete scenario, plus the counter reset at the
concrete below-threshold first update. -/
theorem C2_witness :
    c2Run.2.map ATOnlineResult.at_triggered = [false, false, false, true] ∧
    ((ATOnlineSession.create (mkRat 7 10) 3 60).update_probability (mkRat 1 2)
      none none).1.consecutive_above_threshold = 0 :=
  ⟨(C2_trigger_scenario (ATOnlineSession.create (mkRat 7 10) 3 60)
      (mkRat 1 2) none none rfl).1.1,
   (C2_trigger_scenario (ATOnlineSession.create (mkRat 7 10) 3 60)
      (mkRat 1 2) none none rfl).2.1 (by decide)⟩

/-! ## C3 -/

/-- C3: `recompute_consensus` determines status and ground truth from the
three most-recent per-role times: an adjudicator time forces `finalized`
with that time regardless of a/b; otherwise two primary times within `delta`
give `concordant` with their mean and beyond `delta` give `discordant` with
no ground truth; exactly one primary time gives `partial`; none gives
`pending`. -/
theorem C3_consensus_status (rows : List AnnotationRow) (eid : String)
    (delta : ℚ) (now : String) :
    ((recompute_consensus rows eid delta now).t_a
       = ((latestByRole rows).lookup "a").map Prod.fst ∧
     (recompute_consensus rows eid delta now).t_b
       = ((latestByRole rows).lookup "b").map Prod.fst ∧
     (recompute_consensus rows eid delta now).t_c
       = ((latestByRole rows).lookup "adjudicator").map Prod.fst) ∧
    (∀ c, ((latestByRole rows).lookup "adjudicator").map Prod.fst = some c →
      (recompute_consensus rows eid delta now).status = "finalized" ∧
      (recompute_consensus rows eid delta now).t_gt = some c) ∧
    (((latestByRole rows).lookup "adjudicator").map Prod.fst = none →
      ∀ a b, ((latestByRole rows).lookup "a").map Prod.fst = some a →
        ((latestByRole rows).lookup "b").map Prod.fst = some b →
        (|a - b| ≤ delta →
          (recompute_consensus rows eid delta now).status = "concordant" ∧
          (recompute_consensus rows eid delta now).t_gt = some ((a + b) / 2)) ∧
        (¬ |a - b| ≤ delta →
          (recompute_consensus rows eid delta now).status = "discordant" ∧
          (recompute_consensus rows eid delta now).t_gt = none)) ∧
    (((latestByRole rows).lookup "adjudicator").map Prod.fst = none →
      (((latestByRole rows).lookup "a").map Prod.fst).isSome
        ≠ (((latestByRole rows).lookup "b").map Prod.fst).isSome →
      (recompute_consensus rows eid delta now).status = "partial" ∧
      (recompute_consensus rows eid delta now).t_gt = none) ∧
    (((latestByRole rows).lookup "adjudicator").map Prod.fst = none →
      ((latestByRole rows).lookup "a").map Prod.fst = none →
      ((latestByRole rows).lookup "b").map Prod.fst = none →
      (recompute_consensus rows eid delta now).status = "pending" ∧
      (recompute_consensus rows eid delta now).t_gt = none) := by
  refine ⟨⟨rfl, rfl, rfl⟩, ?_, ?_, ?_, ?_⟩
  · intro c hc
    simp [recompute_consensus, hc]
  · intro hC a b hA hB
    constructor
    · intro hle
      simp [recompute_consensus, hC, hA, hB, hle]
    · intro hgt
      simp [recompute_consensus, hC, hA, hB, hgt]
  · intro hC hne
    rcases hA : ((latestByRole rows).lookup "a").map Prod.fst with _ | a <;>
      rcases hB : ((latestByRole rows).lookup "b").map Prod.fst with _ | b
    · rw [hA, hB] at hne
      exact absurd rfl hne
    · simp [recompute_consensus, hC, hA, hB]
    · simp [recompute_consensus, hC, hA, hB]
    · rw [hA, hB] at hne
      exact absurd rfl hne
  · intro hC hA hB
    simp [recompute_consensus, hC, hA, hB]

/-- Witness for C3: on annotations a = 300 and b = 306 with delta = 10 the
status is `concordant` and the ground truth is the mean 303; on a = 300 and
b = 330 it is `discordant` with no ground truth. -/
theorem C3_witness :
    ((recompute_consensus c3rows "e1" 10 "now").status = "concordant" ∧
     (recompute_consensus c3rows "e1" 10 "now").t_gt = some 303) ∧
    ((recompute_consensus c3rowsFar "e1" 10 "now").status = "discordant" ∧
     (recompute_consensus c3rowsFar "e1" 10 "now").t_gt = none) := by
  have h1 := ((C3_consensus_status c3rows "e1" 10 "now").2.2.1 (by decide)
    300 306 (by decide) (by decide)).1 (by norm_num)
  have h2 := ((C3_consensus_status c3rowsFar "e1" 10 "now").2.2.1 (by decide)
    300 330 (by decide) (by decide)).2 (by norm_num)
  refine ⟨⟨h1.1, ?_⟩, h2⟩
  rw [h1.2]
  norm_num

/-! ## C4 -/

/-- Counterexample to C4 as stated: the upserted Consensus Record includes an
`updated_at` column set from the wall clock (`datetime.utcnow()`), so two
recomputations from the same annotations and delta at different instants are
not byte-identical. -/
theorem C4_counterexample :
    recompute_consensus c4rows "e1" 10 "2026-01-01T00:00:01" ≠
      recompute_consensus c4rows "e1" 10 "2026-01-01T00:00:02" := by
  decide

/-- C4 (amended): recomputation is idempotent in every stored column except
`updated_at` — status, delta, the three role times and the ground truth are a
pure function of the stored annotations and the delta, so two runs differ at
most in the wall-clock `updated_at` column. -/
theorem C4_idempotent_except_updated_at (rows : List AnnotationRow)
    (eid : String) (delta : ℚ) (now1 now2 : String) :
    (recompute_consensus rows eid delta now1).exam_id
      = (recompute_consensus rows eid delta now2).exam_id ∧
    (recompute_consensus rows eid delta now1).delta
      = (recompute_consensus rows eid delta now2).delta ∧
    (recompute_consensus rows eid delta now1).status
      = (recompute_consensus rows eid delta now2).status ∧
    (recompute_consensus rows eid delta now1).t_a
      = (recompute_consensus rows eid delta now2).t_a ∧
    (recompute_consensus rows eid delta now1).t_b
      = (recompute_consensus rows eid delta now2).t_b ∧
    (recompute_consensus rows eid delta now1).t_c
      = (recompute_consensus rows eid delta now2).t_c ∧
    (recompute_consensus rows eid delta now1).t_gt
      = (recompute_consensus rows eid delta now2).t_gt :=
  ⟨rfl, rfl, rfl, rfl, rfl, rfl, rfl⟩

/-! ## C5 -/

/-- Counterexample to C5 as stated: on a session triggered at t = 5, an
update that carries a direct estimate (100) from the scoring function reports
100 as the estimated crossing time, not the recorded trigger time — the
source prefers `predicted_at_time` over `_estimate_at_time()` even when
triggered. -/
theorem C5_counterexample :
    triggeredSession.at_triggered = true ∧
    triggeredSession.trigger_time = some 5 ∧
    ((triggeredSession.add_data_point (zeroPoint 6)).update_probability
        (mkRat 9 10) (some 100) none).2.predicted_at_time = some 100 ∧
    ((triggeredSession.add_data_point (zeroPoint 6)).update_probability
        (mkRat 9 10) (some 100) none).2.predicted_at_time ≠
      (triggeredSession.add_data_point (zeroPoint 6)).trigger_time := by
  refine ⟨by decide, by decide, by decide, by decide⟩

/-- C5 (amended): on a triggered session the estimated crossing time equals
the recorded trigger time only when the scoring function supplies no direct
estimate; a supplied direct estimate always takes precedence, triggered or
not. -/
theorem C5_triggered_estimate (s : ATOnlineSession) (prob : ℚ)
    (pl : Option ℚ) (t : ℚ) (h : s.at_triggered = true) :
    (s.update_probability prob none pl).2.predicted_at_time = s.trigger_time ∧
    (s.update_probability prob (some t) pl).2.predicted_at_time = some t := by
  constructor
  · simp [ATOnlineSession.update_probability, ATOnlineSession.estimate_at_time, h]
  · simp [ATOnlineSession.update_probability, h]

/-- Witness for C5 (amended) on the concretely triggered session. -/
theorem C5_witness :
    (triggeredSession.update_probability (mkRat 9 10) none none).2.predicted_at_time
      = triggeredSession.trigger_time ∧
    (triggeredSession.update_probability (mkRat 9 10) (some 100) none).2.predicted_at_time
      = some 100 :=
  ⟨(C5_triggered_estimate triggeredSession (mkRat 9 10) none 100 (by decide)).1,
   (C5_triggered_estimate triggeredSession (mkRat 9 10) none 100 (by decide)).2⟩

/-! ## C6 helper lemmas -/

/-- List fact: `getLastD` is unchanged by dropping a strict prefix. -/
theorem getLastD_drop (k : ℕ) (l : List ℚ) (h : k < l.length) :
    (l.drop k).getLastD 0 = l.getLastD 0 := by
  rw [List.getLastD_eq_getLast?, List.getLastD_eq_getLast?]
  cases hlast : (l.drop k).getLast? with
  | none =>
    rw [List.getLast?_eq_none_iff] at hlast
    have := congrArg List.length hlast
    simp only [List.length_drop, List.length_nil] at this
    omega
  | some a =>
    conv_rhs => rw [← List.take_append_drop k l]
    rw [List.getLast?_append, hlast]
    rfl

/-- List fact: `getLastD` of the Python slice `l[-10:]` is the last element of `l` when
`l` has at least 10 entries. -/
theorem pySliceLast_getLastD (l : List ℚ) (h10 : 10 ≤ l.length) :
    (pySliceLast 10 l).getLastD 0 = l.getLastD 0 := by
  unfold pySliceLast
  rw [if_neg (by omega)]
  exact getLastD_drop _ l (by omega)

/-- The method `_estimate_at_time` only reads the trigger state, the histories, and the
threshold. -/
theorem estimate_at_time_congr (s₁ s₂ : ATOnlineSession)
    (h1 : s₁.at_triggered = s₂.at_triggered) (h2 : s₁.trigger_time = s₂.trigger_time)
    (h3 : s₁.prob_history = s₂.prob_history) (h4 : s₁.timestamps = s₂.timestamps)
    (h5 : s₁.threshold = s₂.threshold) :
    s₁.estimate_at_time = s₂.estimate_at_time := by
  unfold ATOnlineSession.estimate_at_time
  rw [h1, h2, h3, h4, h5]

/-- Core estimate specification: on an untriggered session the extrapolated
estimate is `none` below 10 probability points or on a non-positive slope,
and a produced estimate is never earlier than the most recent timestamp. -/
theorem estimate_at_time_spec (s : ATOnlineSession) (h : s.at_triggered = false) :
    ((s.prob_history.length < 10 ∨ endpointSlope s.prob_history s.timestamps ≤ 0) →
      s.estimate_at_time = none) ∧
    (∀ t, s.estimate_at_time = some t → s.timestamps.getLastD 0 ≤ t) := by
  constructor
  · intro hcond
    unfold ATOnlineSession.estimate_at_time
    simp only [h, Bool.false_eq_true, if_false]
    by_cases hlen : s.prob_history.length < 10
    · simp [hlen]
    · by_cases hts : s.timestamps.length < 10
      · simp [hlen, hts]
      · have hOr : (pySliceLast 10 s.timestamps).getLastD 0
            - (pySliceLast 10 s.timestamps).headD 0 ≤ 0 ∨
            (pySliceLast 10 s.prob_history).getLastD 0
            - (pySliceLast 10 s.prob_history).headD 0 ≤ 0 := by
          rcases hcond with hc | hc
          · exact absurd hc hlen
          · by_contra hb
            push_neg at hb
            unfold endpointSlope at hc
            have := div_pos hb.2 hb.1
            linarith
        simp only [if_neg hlen, if_neg hts]
        rw [if_pos hOr]
  · intro t ht
    unfold ATOnlineSession.estimate_at_time at ht
    simp only [h, Bool.false_eq_true, if_false] at ht
    by_cases hlen : s.prob_history.length < 10
    · simp [hlen] at ht
    · by_cases hts : s.timestamps.length < 10
      · simp [hlen, hts] at ht
      · simp only [if_neg hlen, if_neg hts] at ht
        have hlast : (pySliceLast 10 s.timestamps).getLastD 0
            = s.timestamps.getLastD 0 :=
          pySliceLast_getLastD s.timestamps (by omega)
        split_ifs at ht with h1 h2
        · have he := Option.some.inj ht
          rw [← hlast]
          exact le_of_eq he
        · have he := Option.some.inj ht
          rw [not_or] at h1
          have htd := lt_of_not_le h1.1
          have hpd := lt_of_not_le h1.2
          have hrem := lt_of_not_le h2
          have hrate : 0 < ((pySliceLast 10 s.prob_history).getLastD 0
              - (pySliceLast 10 s.prob_history).headD 0)
              / ((pySliceLast 10 s.timestamps).getLastD 0
              - (pySliceLast 10 s.timestamps).headD 0) :=
            div_pos hpd htd
          have hq := div_pos hrem hrate
          calc s.timestamps.getLastD 0
              = (pySliceLast 10 s.timestamps).getLastD 0 := hlast.symm
            _ ≤ t := by
                rw [← he]
                linarith

/-- With no direct estimate and an update that leaves the session
untriggered, the reported estimated crossing time is `_estimate_at_time` of
the probability-appended state. -/
theorem update_predicted_eq (s : ATOnlineSession) (prob : ℚ) (pl : Option ℚ)
    (h : (s.update_probability prob none pl).1.at_triggered = false) :
    (s.update_probability prob none pl).2.predicted_at_time =
      ATOnlineSession.estimate_at_time
        { s with prob_history := s.prob_history ++ [prob] } := by
  have h0 : s.at_triggered = false := by
    by_contra hb
    rw [Bool.not_eq_false] at hb
    have := (update_probability_triggered_mono s prob none pl hb).1
    rw [h] at this
    exact Bool.false_ne_true this
  simp only [ATOnlineSession.update_probability, h0, Bool.false_eq_true,
    not_false_eq_true, if_true] at h ⊢
  split_ifs at h ⊢ with h1 h2
  · simp at h
  · exact estimate_at_time_congr _ _ rfl rfl rfl rfl rfl
  · exact estimate_at_time_congr _ _ rfl rfl rfl rfl rfl

/-! ## C6 -/

/-- C6: an update that leaves the session untriggered and receives no direct
estimate reports a null estimated crossing time whenever fewer than 10
probability points exist (after this update's append) or the endpoint slope
over the most recent 10 (probability, timestamp) pairs is non-positive; any
non-null estimate it reports is never earlier than the most recent sample
timestamp, hence never negative once timestamps are non-negative. -/
theorem C6_extrapolation_null_or_future (s : ATOnlineSession) (prob : ℚ)
    (pl : Option ℚ)
    (h : (s.update_probability prob none pl).1.at_triggered = false) :
    (((s.prob_history ++ [prob]).length < 10 ∨
        endpointSlope (s.prob_history ++ [prob]) s.timestamps ≤ 0) →
      (s.update_probability prob none pl).2.predicted_at_time = none) ∧
    (∀ t, (s.update_probability prob none pl).2.predicted_at_time = some t →
      s.timestamps.getLastD 0 ≤ t) ∧
    (0 ≤ s.timestamps.getLastD 0 →
      ∀ t, (s.update_probability prob none pl).2.predicted_at_time = some t →
        0 ≤ t) := by
  have h0 : s.at_triggered = false := by
    by_contra hb
    rw [Bool.not_eq_false] at hb
    have := (update_probability_triggered_mono s prob none pl hb).1
    rw [h] at this
    exact Bool.false_ne_true this
  have hpred := update_predicted_eq s prob pl h
  have hspec := estimate_at_time_spec
    { s with prob_history := s.prob_history ++ [prob] } h0
  refine ⟨?_, ?_, ?_⟩
  · intro hc
    rw [hpred]
    exact hspec.1 hc
  · intro t ht
    rw [hpred] at ht
    exact hspec.2 t ht
  · intro hnn t ht
    rw [hpred] at ht
    exact le_trans hnn (hspec.2 t ht)

/-- Witness for C6: a fresh session's first update (1 probability point,
no direct estimate) reports a null estimate. -/
theorem C6_witness :
    (((ATOnlineSession.create (mkRat 7 10) 3 60).add_data_point
        (zeroPoint 10)).update_probability (mkRat 1 10) none
        none).2.predicted_at_time = none :=
  (C6_extrapolation_null_or_future
      ((ATOnlineSession.create (mkRat 7 10) 3 60).add_data_point (zeroPoint 10))
      (mkRat 1 10) none (by decide)).1 (Or.inl (by decide))

/-! ## C7 helper lemmas -/

/-- Index shift for plan timestamps. -/
theorem planTimestamp_cons (x : (List (String × Option ℚ)) × CPETDataPoint × ℚ)
    (plan : List ((List (String × Option ℚ)) × CPETDataPoint × ℚ)) (k : ℕ) :
    planTimestamp (x :: plan) (k + 1) = planTimestamp plan k := by
  simp [planTimestamp]

/-- Index shift for plan delays. -/
theorem planSleep_cons (x : (List (String × Option ℚ)) × CPETDataPoint × ℚ)
    (plan : List ((List (String × Option ℚ)) × CPETDataPoint × ℚ)) (k : ℕ) :
    planSleep (x :: plan) (k + 1) = planSleep plan k := by
  simp [planSleep]

/-- The replay loop emits one item per row. -/
theorem iterSamplesAux_length (hasTime : Bool) (speed step : ℚ) :
    ∀ (rows : List SimRow) (idx : ℕ) (prev : Option ℚ),
      (iterSamplesAux hasTime speed step idx prev rows).length = rows.length := by
  intro rows
  induction rows with
  | nil => intro idx prev; rfl
  | cons r rest ih =>
    intro idx prev
    simp [iterSamplesAux, ih]

/-- The k-th emitted timestamp comes from the `Time` column when present
(default `(idx+k) × step` for missing values), else is `(idx+k) × step`. -/
theorem iterSamplesAux_timestamp (hasTime : Bool) (speed step : ℚ) :
    ∀ (rows : List SimRow) (idx : ℕ) (prev : Option ℚ) (k : ℕ), k < rows.length →
      planTimestamp (iterSamplesAux hasTime speed step idx prev rows) k =
        (if hasTime then
          ((rows.getD k ⟨[]⟩).getCol "Time").getD (((idx + k : ℕ) : ℚ) * step)
         else ((idx + k : ℕ) : ℚ) * step) := by
  intro rows
  induction rows with
  | nil =>
    intro idx prev k hk
    simp at hk
  | cons r rest ih =>
    intro idx prev k hk
    cases k with
    | zero =>
      simp [iterSamplesAux, planTimestamp, build_data_point]
    | succ k =>
      have hk' : k < rest.length := by simpa using hk
      simp only [iterSamplesAux]
      rw [planTimestamp_cons, ih (idx + 1) _ k hk',
        show (idx + 1) + k = idx + (k + 1) from by omega]
      simp

/-- The first emitted item of a replay started with no previous timestamp has
zero delay. -/
theorem iterSamplesAux_sleep_zero (hasTime : Bool) (speed step : ℚ)
    (rows : List SimRow) (idx : ℕ) (h : rows ≠ []) :
    planSleep (iterSamplesAux hasTime speed step idx none rows) 0 = 0 := by
  cases rows with
  | nil => exact absurd rfl h
  | cons r rest => simp [iterSamplesAux, planSleep]

/-- Each later emitted item waits `max 0 Δt / max speed ε` relative to the
previous emitted timestamp. -/
theorem iterSamplesAux_sleep_succ (hasTime : Bool) (speed step : ℚ) :
    ∀ (rows : List SimRow) (idx : ℕ) (prev : Option ℚ) (k : ℕ),
      k + 1 < rows.length →
      planSleep (iterSamplesAux hasTime speed step idx prev rows) (k + 1) =
        max 0 (planTimestamp (iterSamplesAux hasTime speed step idx prev rows) (k + 1)
          - planTimestamp (iterSamplesAux hasTime speed step idx prev rows) k)
        / max speed (mkRat 1 1000) := by
  intro rows
  induction rows with
  | nil =>
    intro idx prev k hk
    simp at hk
  | cons r rest ih =>
    intro idx prev k hk
    cases k with
    | zero =>
      cases rest with
      | nil => simp at hk
      | cons r2 rest2 =>
        simp [iterSamplesAux, planSleep, planTimestamp, build_data_point]
    | succ k =>
      have hk' : k + 1 < rest.length := by simpa using hk
      simp only [iterSamplesAux]
      rw [planSleep_cons, planTimestamp_cons, planTimestamp_cons]
      exact ih (idx + 1) _ k hk'

/-! ## C7 -/

/-- C7: the replay plan has one item per row; an empty table yields an empty
plan; the first item has zero delay and each later item waits
`max 0 Δtimestamp / max speed ε` (ε = 1/1000); without a `Time` column row k
is stamped `k × default_step`; concretely, explicit times [0, 10, 25] at
speed 2 give delays [0, 5, 7.5], and three rows without a time column at
default step 15 are stamped [0, 15, 30]. -/
theorem C7_replay_pacing (df : SimTable) (speed step : ℚ) :
    (df.rows = [] → iter_samples df speed step = []) ∧
    (iter_samples df speed step).length = df.rows.length ∧
    (df.rows ≠ [] → planSleep (iter_samples df speed step) 0 = 0) ∧
    (∀ k, k + 1 < df.rows.length →
      planSleep (iter_samples df speed step) (k + 1) =
        max 0 (planTimestamp (iter_samples df speed step) (k + 1)
          - planTimestamp (iter_samples df speed step) k)
        / max speed (mkRat 1 1000)) ∧
    (∀ k, k < df.rows.length →
      planTimestamp (iter_samples df speed step) k =
        (if df.hasTimeCol then
          ((df.rows.getD k ⟨[]⟩).getCol "Time").getD ((k : ℚ) * step)
         else (k : ℚ) * step)) ∧
    (iter_samples c7TimedTable 2 15).map (fun e => e.2.2) = [0, 5, mkRat 15 2] ∧
    (iter_samples c7NoTimeTable 1 15).map (fun e => e.2.1.timestamp)
      = [0, 15, 30] := by
  refine ⟨?_, iterSamplesAux_length _ _ _ _ _ _, ?_, ?_, ?_, ?_, ?_⟩
  · intro h
    unfold iter_samples
    rw [h, iterSamplesAux]
  · intro h
    exact iterSamplesAux_sleep_zero _ _ _ _ _ h
  · intro k hk
    exact iterSamplesAux_sleep_succ _ _ _ df.rows 0 none k hk
  · intro k hk
    simpa using iterSamplesAux_timestamp df.hasTimeCol speed step df.rows 0 none k hk
  · norm_num [iter_samples, iterSamplesAux, c7TimedTable, SimRow.getCol,
      List.lookup, build_data_point, max_def, Rat.mkRat_eq_div]
  · norm_num [iter_samples, iterSamplesAux, c7NoTimeTable, SimRow.getCol,
      List.lookup, build_data_point, max_def, Rat.mkRat_eq_div]

/-- Witness for C7: the empty table yields an empty plan, and the concrete
timed table's plan starts with a zero delay. -/
theorem C7_witness :
    iter_samples (⟨true, []⟩ : SimTable) 2 15 = [] ∧
    planSleep (iter_samples c7TimedTable 2 15) 0 = 0 :=
  ⟨(C7_replay_pacing ⟨true, []⟩ 2 15).1 rfl,
   (C7_replay_pacing c7TimedTable 2 15).2.2.1 (by decide)⟩

/-! ## C8/C9 helper lemmas -/

/-- The method `update_probability` never touches the sample buffer. -/
@[simp] theorem update_probability_data_buffer (s : ATOnlineSession) (prob : ℚ)
    (pt pl : Option ℚ) :
    (s.update_probability prob pt pl).1.data_buffer = s.data_buffer := by
  simp only [ATOnlineSession.update_probability]
  split_ifs <;> simp

/-- The method `update_probability` never touches the timestamp list. -/
@[simp] theorem update_probability_timestamps (s : ATOnlineSession) (prob : ℚ)
    (pt pl : Option ℚ) :
    (s.update_probability prob pt pl).1.timestamps = s.timestamps := by
  simp only [ATOnlineSession.update_probability]
  split_ifs <;> simp

/-- The newest sample is always the last element of the (possibly evicted)
buffer after `add_data_point`. -/
theorem add_data_point_last (s : ATOnlineSession) (p : CPETDataPoint) :
    (s.add_data_point p).data_buffer.getLastD defaultPoint = p := by
  simp only [ATOnlineSession.add_data_point]
  split_ifs with h
  · unfold pySliceLast
    split_ifs with h0
    · exact List.getLastD_concat _ _ _
    · rw [List.length_append, List.length_singleton,
        List.drop_append_of_le_length (by omega), List.getLastD_concat]
  · exact List.getLastD_concat _ _ _

/-- The warmup fast path of `process_data`: with a non-positive work rate on
a session that has not started exercising, the sample is buffered, the
counter incremented, and a fabricated zero-probability warmup result is
returned without consulting the scoring function. -/
theorem process_data_warmup (predict : List CPETDataPoint → PredictOutputs)
    (st : SessionState) (data : List (String × ℚ))
    (hw : (parsePoint data).work_rate ≤ 0)
    (hs : st.at_session.has_exercise_started = false) :
    process_data predict (some st) data =
      Except.ok
        ({ st with
            at_session := st.at_session.add_data_point (parsePoint data)
            data_count := st.data_count + 1 },
         { timestamp := (parsePoint data).timestamp
           at_probability := 0
           at_triggered := st.at_triggered
           predicted_at_time := none
           intensity_zone := "warmup"
           alerts := []
           data_count := st.data_count + 1
           exam_id := st.exam_id }) := by
  have hsa : (st.at_session.add_data_point (parsePoint data)).has_exercise_started
      = false :=
    (add_data_point_fields st.at_session (parsePoint data)).2.2.2.2.1.trans hs
  simp only [process_data]
  split_ifs with h1 h2
  · exact (h2.2 h2.1).elim
  · rfl
  · exact absurd ⟨hw, by simp [hsa]⟩ h1
  · exact absurd ⟨hw, by simp [hsa]⟩ h1

/-! ## C8 -/

/-- C8: for an inbound sample with work rate ≤ 0 on a session whose
exercise-started flag is false, `process_data` returns the fabricated
zero-probability warmup result (no alerts, no estimate, triggered flag
mirrored), leaves the probability history, debounce counter, trigger state
and exercise flag unchanged, appends exactly the parsed sample to the
buffer, and never consults the scoring function (the outcome is the same for
any two scoring functions). -/
theorem C8_warmup_frame (predict predict2 : List CPETDataPoint → PredictOutputs)
    (st : SessionState) (data : List (String × ℚ))
    (hw : (parsePoint data).work_rate ≤ 0)
    (hs : st.at_session.has_exercise_started = false) :
    process_data predict (some st) data =
      Except.ok
        ({ st with
            at_session := st.at_session.add_data_point (parsePoint data)
            data_count := st.data_count + 1 },
         { timestamp := (parsePoint data).timestamp
           at_probability := 0
           at_triggered := st.at_triggered
           predicted_at_time := none
           intensity_zone := "warmup"
           alerts := []
           data_count := st.data_count + 1
           exam_id := st.exam_id }) ∧
    (st.at_session.add_data_point (parsePoint data)).prob_history
      = st.at_session.prob_history ∧
    (st.at_session.add_data_point (parsePoint data)).consecutive_above_threshold
      = st.at_session.consecutive_above_threshold ∧
    (st.at_session.add_data_point (parsePoint data)).at_triggered
      = st.at_session.at_triggered ∧
    (st.at_session.add_data_point (parsePoint data)).trigger_time
      = st.at_session.trigger_time ∧
    (st.at_session.add_data_point (parsePoint data)).has_exercise_started = false ∧
    (st.at_session.add_data_point (parsePoint data)).data_buffer.getLastD
        defaultPoint = parsePoint data ∧
    process_data predict (some st) data = process_data predict2 (some st) data :=
  ⟨process_data_warmup predict st data hw hs,
   (add_data_point_fields st.at_session (parsePoint data)).2.2.1,
   (add_data_point_fields st.at_session (parsePoint data)).2.2.2.1,
   (add_data_point_fields st.at_session (parsePoint data)).1,
   (add_data_point_fields st.at_session (parsePoint data)).2.1,
   (add_data_point_fields st.at_session (parsePoint data)).2.2.2.2.1.trans hs,
   add_data_point_last st.at_session (parsePoint data),
   (process_data_warmup predict st data hw hs).trans
     (process_data_warmup predict2 st data hw hs).symm⟩

/-- Witness for C8: a concrete zero-work-rate sample on a fresh session. -/
theorem C8_witness :
    process_data dfltPredict (some freshSessionState) c8data =
      process_data otherPredict (some freshSessionState) c8data ∧
    (freshSessionState.at_session.add_data_point (parsePoint c8data)).prob_history
      = freshSessionState.at_session.prob_history :=
  ⟨(C8_warmup_frame dfltPredict otherPredict freshSessionState c8data
      (by decide) (by decide)).2.2.2.2.2.2.2,
   (C8_warmup_frame dfltPredict otherPredict freshSessionState c8data
      (by decide) (by decide)).2.1⟩

/-! ## C9 -/

/-- Counterexample to C9 as stated: the sample with heart rate −1000 bpm and
RER 20 — plainly out of physiological range — is not rejected: `process_data`
returns a normal prediction result and the sample is appended to the
session's buffer.  No field validation exists at ingestion. -/
theorem C9_counterexample :
    (parsePoint c9data).hr = -1000 ∧
    (parsePoint c9data).rer = 20 ∧
    (process_data dfltPredict (some freshSessionState) c9data).toOption.isSome
      = true ∧
    ((process_data dfltPredict (some freshSessionState) c9data).toOption.map
        fun x => x.1.at_session.data_buffer.length).getD 0
      = freshSessionState.at_session.data_buffer.length + 1 := by
  exact ⟨by decide, by decide, by decide, by decide⟩

/-- C9 (amended): ingestion performs no field validation at all — every
inbound numeric sample object is accepted whatever its values: the parsed
point is appended to the buffer and the sample counter incremented; a
structured error with no state mutation arises only for an unknown session
id (and, outside this numeric-object model, for a message that fails to
parse as an object at all). -/
theorem C9_no_validation (predict : List CPETDataPoint → PredictOutputs)
    (st : SessionState) (data : List (String × ℚ)) :
    ((process_data predict (some st) data).toOption.map fun x =>
        (x.1.at_session.data_buffer, x.1.data_count)) =
      some ((st.at_session.add_data_point (parsePoint data)).data_buffer,
        st.data_count + 1) ∧
    process_data predict none data = Except.error "Session not found" := by
  constructor
  · simp only [process_data]
    split_ifs <;> simp [Except.toOption]
  · rfl

/-! ## C10 helper lemmas -/

/-- A normalized name outside the direct map (and its aliases) resolves to
nothing in `direct_map`. -/
theorem directGet_of_not_mem (p : CPETDataPoint) (lower : String)
    (h : lower ∉ knownFeatureNames) : p.directGet lower = none := by
  simp only [knownFeatureNames, List.mem_cons, List.not_mem_nil, or_false,
    not_or] at h
  obtain ⟨h1, h2, h3, h4, h5, h6, h7, h8, h9, h10, h11, h12, h13, h14, h15,
    h16, h17, h18⟩ := h
  simp [CPETDataPoint.directGet, h1, h2, h3, h4, h5, h6, h7, h8, h9, h10,
    h11, h12, h13, h14, h15]

/-! ## C10 -/

/-- C10: `get_feature` is a total function of the data point and the name
(the embedding is a Lean function, so it can never raise): a name that,
after strip/lower normalization, is neither an extras key nor any known
feature name yields 0.0; the derived ratios `ve_vo2`, `ve_vco2` and `vo2_hr`
are guarded — when the respective denominator is zero (and no extras entry
shadows them) they yield 0.0 instead of dividing by zero; and
`to_feature_vector` is exactly the pointwise `get_feature` map, hence
equally total. -/
theorem C10_get_feature_total (p : CPETDataPoint) (name : String)
    (names : List String) :
    ((p.extras.lookup (pyLower (pyStrip name))).join = none →
      pyLower (pyStrip name) ∉ knownFeatureNames → p.get_feature name = 0) ∧
    (p.vo2 = 0 → (p.extras.lookup "ve_vo2").join = none →
      p.get_feature "ve_vo2" = 0) ∧
    (p.vco2 = 0 → (p.extras.lookup "ve_vco2").join = none →
      p.get_feature "ve_vco2" = 0) ∧
    (p.hr = 0 → (p.extras.lookup "vo2_hr").join = none →
      p.get_feature "vo2_hr" = 0) ∧
    p.to_feature_vector names = names.map p.get_feature := by
  refine ⟨?_, ?_, ?_, ?_, rfl⟩
  · intro hx hunk
    have hv1 : pyLower (pyStrip name) ≠ "ve_vo2" := fun he =>
      hunk (by rw [he]; decide)
    have hv2 : pyLower (pyStrip name) ≠ "ve_vco2" := fun he =>
      hunk (by rw [he]; decide)
    have hv3 : pyLower (pyStrip name) ≠ "vo2_hr" := fun he =>
      hunk (by rw [he]; decide)
    have hx' : (List.lookup (pyLower (pyStrip name)) p.extras).bind
        (fun a => a) = none := hx
    simp [CPETDataPoint.get_feature, hx', directGet_of_not_mem p _ hunk,
      hv1, hv2, hv3]
  · intro hv hx
    have hl : pyLower (pyStrip "ve_vo2") = "ve_vo2" := by decide
    have hx' : (List.lookup "ve_vo2" p.extras).bind (fun a => a) = none := hx
    simp [CPETDataPoint.get_feature, hl, hx', hv,
      show ∀ q : CPETDataPoint, q.directGet "ve_vo2" = none from fun q => rfl]
  · intro hv hx
    have hl : pyLower (pyStrip "ve_vco2") = "ve_vco2" := by decide
    have hx' : (List.lookup "ve_vco2" p.extras).bind (fun a => a) = none := hx
    simp [CPETDataPoint.get_feature, hl, hx', hv,
      show ∀ q : CPETDataPoint, q.directGet "ve_vco2" = none from fun q => rfl]
  · intro hv hx
    have hl : pyLower (pyStrip "vo2_hr") = "vo2_hr" := by decide
    have hx' : (List.lookup "vo2_hr" p.extras).bind (fun a => a) = none := hx
    simp [CPETDataPoint.get_feature, hl, hx', hv,
      show ∀ q : CPETDataPoint, q.directGet "vo2_hr" = none from fun q => rfl]

/-- Witness for C10: an unknown feature name yields 0, and `ve_vo2` on a
point with zero oxygen uptake (but non-zero ventilation) yields 0 instead of
dividing by zero. -/
theorem C10_witness :
    (zeroPoint 0).get_feature "nonexistent_feature" = 0 ∧
    ({ zeroPoint 0 with ve := 5 } : CPETDataPoint).get_feature "ve_vo2" = 0 :=
  ⟨(C10_get_feature_total (zeroPoint 0) "nonexistent_feature" []).1
      (by decide) (by decide),
   (C10_get_feature_total ({ zeroPoint 0 with ve := 5 }) "x" []).2.1
      (by decide) (by decide)⟩

end Xinhui
